import Mathlib

/-!
Shallow embedding of the raytx swap service: the HTTP entry layer
(src/api.rs), the daemon startup (src/daemon.rs) and the trading signal
helper (src/signal.rs).  External collaborators of these files (the rpc
client constructors, the pump and raydium modules, the jito tip machinery,
the token account reader and the swap engine itself) live outside src/ and
are modelled either as abstract environments of results or, where a claim
needs their behaviour, as definitions modelled from the spec (each such
definition says so in its doc comment).
-/

/-- Model of the Rust f64 values that flow through the entry layer: a
NaN-aware rational.  The value none models NaN, some q a finite value q.
The embedded code only ever compares such values with the IEEE orderings
greater-than and less-than, on which every comparison with NaN is false;
this model reproduces those comparisons exactly. -/
abbrev F64 := Option ℚ

/-- IEEE comparison value > 0.0 as Rust evaluates it: false for NaN. -/
def fgt0 : F64 → Bool
  | some q => decide (0 < q)
  | none => false

/-- IEEE comparison value < 0.0 as Rust evaluates it: false for NaN. -/
def flt0 : F64 → Bool
  | some q => decide (q < 0)
  | none => false

/-- Signal from src/signal.rs: a named f64-valued trading signal. -/
structure Signal where
  name : String
  value : F64

/-- Signal::new from src/signal.rs. -/
def Signal.new (name : String) (value : F64) : Signal :=
  { name := name, value := value }

/-- Signal::should_buy from src/signal.rs: self.value > 0.0. -/
def Signal.should_buy (self : Signal) : Bool :=
  fgt0 self.value

/-- Signal::should_sell from src/signal.rs: self.value < 0.0. -/
def Signal.should_sell (self : Signal) : Bool :=
  flt0 self.value

/-- Action taken by process_signal (src/signal.rs): the buy branch, the sell
branch, or the no-action branch (each branch prints its message). -/
inductive SignalAction where
  | buyAction
  | sellAction
  | noAction
deriving DecidableEq

/-- process_signal from src/signal.rs: buy when should_buy, otherwise sell
when should_sell, otherwise no action. -/
def process_signal (signal : Signal) : SignalAction :=
  if signal.should_buy then SignalAction.buyAction
  else if signal.should_sell then SignalAction.sellAction
  else SignalAction.noAction

/-- SwapDirection from src/swap.rs as used by src/api.rs. -/
inductive SwapDirection where
  | buy
  | sell
deriving DecidableEq

/-- SwapInType from src/swap.rs as used by src/api.rs: quantity or percent. -/
inductive SwapInType where
  | qty
  | pct
deriving DecidableEq

/-- CreateSwap from src/api.rs: the deserialized swap request body; in_type,
slippage and jito are optional fields of the client request. -/
structure CreateSwap where
  mint : String
  direction : SwapDirection
  amount_in : F64
  in_type : Option SwapInType
  slippage : Option Nat
  jito : Option Bool

/-- Rust str::parse::<u64>: an optional leading plus sign, then one or more
decimal digits, rejecting values of 2^64 and above. -/
def parseU64 (s : String) : Option Nat :=
  let chars : List Char :=
    match s.toList with
    | '+' :: rest => rest
    | cs => cs
  if chars.isEmpty ∨ ¬ (chars.all Char.isDigit) then none
  else
    let n := chars.foldl (fun n c => n * 10 + (c.toNat - 48)) 0
    if n < 2 ^ 64 then some n else none

/-- Slippage resolution from src/api.rs lines 47 to 54: a client-provided
value is used as is; otherwise the SLIPPAGE environment option (modelled as
an optional string) is read with textual default "5", and parsed as u64 with
numeric default 5. -/
def resolve_slippage (inputSlippage : Option Nat) (envSlippage : Option String) : Nat :=
  match inputSlippage with
  | some v => v
  | none => (parseU64 (envSlippage.getD "5")).getD 5

/-- Arguments the handler passes to the swap engine (swap::swap, outside
src/): every optional request field has been resolved to a definite value. -/
structure EngineArgs where
  mint : String
  amount_in : F64
  direction : SwapDirection
  in_type : SwapInType
  slippage : Nat
  jito : Bool

/-- Argument construction of the swap handler, src/api.rs lines 58 to 66:
in_type defaults to Qty, jito defaults to false, slippage is resolved by
resolve_slippage. -/
def engineArgsOf (input : CreateSwap) (envSlippage : Option String) : EngineArgs :=
  { mint := input.mint
    amount_in := input.amount_in
    direction := input.direction
    in_type := input.in_type.getD SwapInType.qty
    slippage := resolve_slippage input.slippage envSlippage
    jito := input.jito.getD false }

/-- Modelled from the spec: the Swap Execution Engine (src/swap.rs, not under
src/) receives the entry-level whole-percent slippage and applies it as basis
points, per the spec field slippage_bps: u64 (default 500 = 5%): the entry
default of 5 percent is the spec default of 500 basis points. -/
def slippage_bps (slippage : Nat) : Nat :=
  slippage * 100

/-- Modelled from the spec: the HTTP response envelope built by
helper.api_ok and helper.api_error (src/helper.rs, not under src/): either a
success payload or an error message. -/
inductive ApiResponse (α : Type) where
  | ok (data : α)
  | err (msg : String)
deriving DecidableEq

/-- Response construction of the swap handler, src/api.rs lines 68 to 74: an
engine success becomes api_ok of the transactions, an engine error becomes
api_error of the error text.  The engine call itself (swap::swap, not under
src/) is abstracted as its result. -/
def swapResponse (result : Except String (List String)) : ApiResponse (List String) :=
  match result with
  | Except.ok txs => ApiResponse.ok txs
  | Except.error err => ApiResponse.err err

/-- Modelled from the spec: AMM pool price info returned by
Raydium.get_pool_price (src/raydium.rs, not under src/): pool reserves and
the derived price. -/
structure RaydiumInfo where
  base : ℚ
  quote : ℚ
  price : ℚ
deriving DecidableEq

/-- Modelled from the spec: bonding curve state returned by get_pump_info
(src/pump.rs, not under src/): virtual and real reserves, the complete flag
marking migration to the AMM, and the optionally attached AMM info. -/
structure PumpInfo where
  virtual_sol_reserves : Nat
  virtual_token_reserves : Nat
  real_sol_reserves : Nat
  real_token_reserves : Nat
  complete : Bool
  raydium_info : Option RaydiumInfo
deriving DecidableEq

/-- Venue queries issued against the chain while resolving coin info: the
bonding curve registry lookup and the AMM pool price lookup. -/
inductive VenueQuery where
  | pumpLookup (mint : String)
  | ammPriceLookup (mint : String)
deriving DecidableEq

/-- External chain collaborators of src/api.rs, modelled as an environment of
abstract results: rpc client construction (get_rpc_client and
get_rpc_client_blocking), the bonding curve registry read (get_pump_info in
src/pump.rs) and the AMM pool price read by mint (Raydium.get_pool_price in
src/raydium.rs), all outside src/. -/
structure ChainEnv where
  rpcClient : Except String Unit
  rpcClientBlocking : Except String Unit
  pumpInfoOf : String → Except String PumpInfo
  poolPriceByMint : String → Except String RaydiumInfo

/-- get_coin_info from src/api.rs lines 184 to 217, instrumented with the
list of venue queries it issues, in order.  The rpc clients are acquired
first; the pump registry is queried; a pump error returns immediately; for a
complete curve the AMM pool price is additionally queried and attached on
success, while a pool price error is only logged (the info is returned
unchanged). -/
def get_coin_info (env : ChainEnv) (mint : String) :
    Except String PumpInfo × List VenueQuery :=
  match env.rpcClient with
  | Except.error err => (Except.error ("failed to get rpc client: " ++ err), [])
  | Except.ok _ =>
    match env.rpcClientBlocking with
    | Except.error err => (Except.error ("failed to get rpc client: " ++ err), [])
    | Except.ok _ =>
      match env.pumpInfoOf mint with
      | Except.error err => (Except.error err, [VenueQuery.pumpLookup mint])
      | Except.ok pump_info =>
        if pump_info.complete then
          match env.poolPriceByMint mint with
          | Except.ok raydium_info =>
              (Except.ok { pump_info with raydium_info := some raydium_info },
               [VenueQuery.pumpLookup mint, VenueQuery.ammPriceLookup mint])
          | Except.error _ =>
              (Except.ok pump_info,
               [VenueQuery.pumpLookup mint, VenueQuery.ammPriceLookup mint])
        else
          (Except.ok pump_info, [VenueQuery.pumpLookup mint])

/-- The two liquidity venues of the spec data model. -/
inductive VenueKind where
  | bondingCurve
  | constantProductPool
deriving DecidableEq

/-- Modelled from the spec: the venue a resolved coin info routes to.  The
router of the spec routes a curve with complete = false to BondingCurve and a
completed (migrated) curve to ConstantProductPool; downstream consumers of
get_coin_info (src/swap.rs, not under src/) select the venue by the complete
flag. -/
def routedVenue (info : PumpInfo) : VenueKind :=
  if info.complete then VenueKind.constantProductPool else VenueKind.bondingCurve

/-- coins handler from src/api.rs lines 219 to 228: api_ok of the resolved
info or api_error of the resolution error. -/
def coins (env : ChainEnv) (mint : String) : ApiResponse PumpInfo :=
  match (get_coin_info env mint).1 with
  | Except.ok pump_info => ApiResponse.ok pump_info
  | Except.error err_msg => ApiResponse.err err_msg

/-- Opaque model of a solana public key (32 bytes on chain). -/
abbrev Pubkey := Nat

/-- Opaque model of the token account data returned by token::token_account
(src/token.rs, not under src/). -/
structure TokenAccountInfo where
  amount : Nat
deriving DecidableEq

/-- External collaborators of the token_account handler (src/api.rs):
rpc client construction, the solana_sdk Pubkey::from_str base58 validator,
and the chain read token::token_account of a wallet and a mint key. -/
structure TokenEnv where
  rpcClient : Except String Unit
  pubkeyFromStr : String → Option Pubkey
  tokenAccountOf : Pubkey → Pubkey → Except String TokenAccountInfo

/-- token_account handler from src/api.rs lines 252 to 279, instrumented
with the list of mint keys it performs a chain lookup for: the rpc client is
acquired; the mint path string is parsed, answering invalid mint pubkey
without any chain read when parsing fails; only a successfully parsed mint
key is looked up on chain. -/
def token_account (env : TokenEnv) (wallet : Pubkey) (mint : String) :
    ApiResponse TokenAccountInfo × List Pubkey :=
  match env.rpcClient with
  | Except.error err => (ApiResponse.err ("failed to get rpc client: " ++ err), [])
  | Except.ok _ =>
    match env.pubkeyFromStr mint with
    | none => (ApiResponse.err "invalid mint pubkey", [])
    | some mintKey =>
      match env.tokenAccountOf wallet mintKey with
      | Except.ok acct => (ApiResponse.ok acct, [mintKey])
      | Except.error err => (ApiResponse.err err, [mintKey])

/-- Steps completed by start_service (src/daemon.rs), in order. -/
inductive StartEvent where
  | initTipAccounts
  | spawnTipStream
  | bindListener
  | serve
deriving DecidableEq

/-- External collaborators of start_service (src/daemon.rs): the result of
jito::init_tip_accounts (src/jito.rs, not under src/) and of binding the TCP
listener. -/
structure DaemonEnv where
  initTipAccountsResult : Except String Unit
  bindResult : Except String Unit

/-- Outcome of the daemon startup: a panic (an unwrap or expect failed, the
process terminates) or the serving state. -/
inductive StartOutcome where
  | panicked (msg : String)
  | serving
deriving DecidableEq

/-- start_service from src/daemon.rs lines 13 to 62, as an outcome and the
trace of completed steps: init_tip_accounts runs first and is unwrapped
(panicking the process on error, before anything else happens); then the tip
stream task is spawned, the router is built, the listener is bound
(unwrapped) and serving begins. -/
def start_service (env : DaemonEnv) : StartOutcome × List StartEvent :=
  match env.initTipAccountsResult with
  | Except.error e => (StartOutcome.panicked e, [])
  | Except.ok _ =>
    match env.bindResult with
    | Except.error e =>
        (StartOutcome.panicked e,
         [StartEvent.initTipAccounts, StartEvent.spawnTipStream])
    | Except.ok _ =>
        (StartOutcome.serving,
         [StartEvent.initTipAccounts, StartEvent.spawnTipStream,
          StartEvent.bindListener, StartEvent.serve])

/-- Tip percentile buckets of the relay tip stream (spec: the 25th, 50th,
75th, 95th and 99th percentile lamport values). -/
structure TipPercentiles where
  p25 : Nat
  p50 : Nat
  p75 : Nat
  p95 : Nat
  p99 : Nat
deriving DecidableEq

/-- A percentile bucket selector. -/
inductive Percentile where
  | p25
  | p50
  | p75
  | p95
  | p99
deriving DecidableEq

/-- Bucket lookup in a TipPercentiles snapshot. -/
def TipPercentiles.get (t : TipPercentiles) : Percentile → Nat
  | Percentile.p25 => t.p25
  | Percentile.p50 => t.p50
  | Percentile.p75 => t.p75
  | Percentile.p95 => t.p95
  | Percentile.p99 => t.p99

/-- Process-wide tip snapshot state: none until the first stream message has
been received, then the whole snapshot of the latest message. -/
abbrev TipState := Option TipPercentiles

/-- Modelled from the spec: one connection attempt of the tip stream
subscription, either a transport failure or a connection that delivers a
batch of messages before it ends. -/
inductive ConnAttempt where
  | transportFail
  | connected (msgs : List TipPercentiles)

/-- Modelled from the spec: the subscription loop of jito::ws::tip_stream
(src/jito/ws.rs, not under src/): every inbound message atomically replaces
the whole snapshot; a transport failure makes the loop retry its own
connection, keeping the last snapshot; the loop runs over all attempts until
process shutdown. -/
def tip_stream_loop : List ConnAttempt → TipState → TipState
  | [], st => st
  | ConnAttempt.transportFail :: rest, st => tip_stream_loop rest st
  | ConnAttempt.connected msgs :: rest, st =>
      tip_stream_loop rest (msgs.foldl (fun _ m => some m) st)

/-- Modelled from the spec: the tip stream subscription run from startup to
shutdown over the observed connection attempts; transport failures are
absorbed by the internal retry loop, so the subscription never finishes with
an error. -/
def tip_stream (attempts : List ConnAttempt) : Except String TipState :=
  Except.ok (tip_stream_loop attempts none)

/-- Outcome of the spawned daemon tip task: it ran to shutdown with a final
snapshot, or it panicked.  A panic inside a spawned task is contained by the
runtime: it ends the task, not the process. -/
inductive TaskOutcome where
  | completed (st : TipState)
  | taskPanicked (msg : String)

/-- The task spawned by start_service, src/daemon.rs lines 15 to 19:
tip_stream() followed by expect, which panics the spawned task when the
subscription returns an error. -/
def tipStreamTask (attempts : List ConnAttempt) : TaskOutcome :=
  match tip_stream attempts with
  | Except.ok st => TaskOutcome.completed st
  | Except.error e =>
      TaskOutcome.taskPanicked ("Failed to get tip percentiles data: " ++ e)

/-- The daemon process together with its spawned tip task: the process
outcome and trace come from start_service alone; the spawned task outcome is
recorded separately and exists only once startup passed the tip account
discovery (the spawn is after the unwrap). -/
def daemon_run (env : DaemonEnv) (attempts : List ConnAttempt) :
    (StartOutcome × List StartEvent) × Option TaskOutcome :=
  (start_service env,
   match env.initTipAccountsResult with
   | Except.error _ => none
   | Except.ok _ => some (tipStreamTask attempts))

/-- Modelled from the spec: current_tip(target_percentile) of the Tip Stream
Monitor returns Unavailable (none) until at least one stream message has
been received, and afterwards the requested bucket of the latest snapshot. -/
def current_tip (st : TipState) (pct : Percentile) : Option Nat :=
  match st with
  | some t => some (t.get pct)
  | none => none

/-- Modelled from the spec: a priority-relay caller falls back to the
configured minimum tip when current_tip is Unavailable. -/
def tip_for_swap (st : TipState) (pct : Percentile) (minTip : Nat) : Nat :=
  (current_tip st pct).getD minTip

/-- Modelled from the spec: the tip the engine attaches to a swap: a tip is
consulted only when the priority relay was requested, and an Unavailable tip
is replaced by the minimum fallback tip, never turned into a failure. -/
def engine_tip (jito : Bool) (st : TipState) (pct : Percentile) (minTip : Nat) :
    Option Nat :=
  if jito then some (tip_for_swap st pct minTip) else none

/-- Modelled from the spec: the outcome of a swap with its tip step, given
the outcome the same swap would have without the tip step: choosing the tip
(including the Unavailable fallback) introduces no failure of its own. -/
def execute_with_tip (coreResult : Except String (List String)) (jito : Bool)
    (st : TipState) (pct : Percentile) (minTip : Nat) :
    Except String (List String × Option Nat) :=
  coreResult.map (fun txs => (txs, engine_tip jito st pct minTip))

/-- Example swap request body with every optional field omitted. -/
def exSwapInput : CreateSwap :=
  { mint := "So11111111111111111111111111111111111111112"
    direction := SwapDirection.buy
    amount_in := some 1
    in_type := none
    slippage := none
    jito := none }

/-- Example AMM pool info. -/
def exRaydiumInfo : RaydiumInfo :=
  { base := 1000, quote := 1000, price := 1 }

/-- Example bonding curve info with the given complete flag. -/
def exPumpInfo (complete : Bool) : PumpInfo :=
  { virtual_sol_reserves := 30
    virtual_token_reserves := 30
    real_sol_reserves := 0
    real_token_reserves := 0
    complete := complete
    raydium_info := none }

/-- Example chain environment: the mint has no bonding curve (the registry
lookup fails) while an AMM pool for it exists. -/
def exNoCurveEnv : ChainEnv :=
  { rpcClient := Except.ok ()
    rpcClientBlocking := Except.ok ()
    pumpInfoOf := fun _ => Except.error "curve not found"
    poolPriceByMint := fun _ => Except.ok exRaydiumInfo }

/-- Example chain environment: a completed curve whose AMM pool price lookup
fails. -/
def exPriceFailEnv : ChainEnv :=
  { rpcClient := Except.ok ()
    rpcClientBlocking := Except.ok ()
    pumpInfoOf := fun _ => Except.ok (exPumpInfo true)
    poolPriceByMint := fun _ => Except.error "pool price unavailable" }

/-- Example chain environment: a completed curve with an existing AMM pool. -/
def exCompleteEnv : ChainEnv :=
  { rpcClient := Except.ok ()
    rpcClientBlocking := Except.ok ()
    pumpInfoOf := fun _ => Except.ok (exPumpInfo true)
    poolPriceByMint := fun _ => Except.ok exRaydiumInfo }

/-- Example token endpoint environment: exactly the string GOODMINT parses
as a public key. -/
def exTokenEnv : TokenEnv :=
  { rpcClient := Except.ok ()
    pubkeyFromStr := fun s => if s = "GOODMINT" then some 7 else none
    tokenAccountOf := fun _ _ => Except.ok { amount := 42 } }

/-- Reduction of get_coin_info once both rpc clients are acquired: the result
is decided by the pump registry lookup and, for a complete curve, the AMM
pool price lookup. -/
theorem get_coin_info_clients_ok (env : ChainEnv) (mint : String)
    (hc : env.rpcClient = Except.ok ()) (hb : env.rpcClientBlocking = Except.ok ()) :
    get_coin_info env mint =
      match env.pumpInfoOf mint with
      | Except.error err => (Except.error err, [VenueQuery.pumpLookup mint])
      | Except.ok pump_info =>
        if pump_info.complete then
          match env.poolPriceByMint mint with
          | Except.ok raydium_info =>
              (Except.ok { pump_info with raydium_info := some raydium_info },
               [VenueQuery.pumpLookup mint, VenueQuery.ammPriceLookup mint])
          | Except.error _ =>
              (Except.ok pump_info,
               [VenueQuery.pumpLookup mint, VenueQuery.ammPriceLookup mint])
        else
          (Except.ok pump_info, [VenueQuery.pumpLookup mint]) := by
  unfold get_coin_info
  rw [hc, hb]

/-- C1: a swap request that omits the slippage field is given a definite
slippage before the engine is invoked; under the default configuration (no
SLIPPAGE environment entry) that value is 5 whole percent, which the engine
applies as 500 basis points. -/
theorem swap_defaults_slippage_500bps (input : CreateSwap) (envSlippage : Option String)
    (hs : input.slippage = none) (he : envSlippage = none) :
    (engineArgsOf input envSlippage).slippage = 5 ∧
    slippage_bps (engineArgsOf input envSlippage).slippage = 500 := by
  subst he
  constructor
  · show resolve_slippage input.slippage none = 5
    rw [hs]
    all_goals decide
  · show slippage_bps (resolve_slippage input.slippage none) = 500
    rw [hs]
    all_goals decide

/-- Witness for C1 at a concrete request omitting every optional field. -/
theorem swap_defaults_slippage_500bps_witness :
    (engineArgsOf exSwapInput none).slippage = 5 ∧
    slippage_bps (engineArgsOf exSwapInput none).slippage = 500 :=
  swap_defaults_slippage_500bps exSwapInput none rfl rfl

/-- C8: a request omitting in_type invokes the engine with in_type = Qty,
and a request omitting the jito flag invokes the engine with jito = false. -/
theorem swap_defaults_in_type_and_jito (input : CreateSwap) (envSlippage : Option String)
    (ht : input.in_type = none) (hj : input.jito = none) :
    (engineArgsOf input envSlippage).in_type = SwapInType.qty ∧
    (engineArgsOf input envSlippage).jito = false := by
  constructor
  · show input.in_type.getD SwapInType.qty = SwapInType.qty
    rw [ht]
    all_goals rfl
  · show input.jito.getD false = false
    rw [hj]
    all_goals rfl

/-- Witness for C8 at a concrete request omitting every optional field. -/
theorem swap_defaults_in_type_and_jito_witness :
    (engineArgsOf exSwapInput none).in_type = SwapInType.qty ∧
    (engineArgsOf exSwapInput none).jito = false :=
  swap_defaults_in_type_and_jito exSwapInput none rfl rfl

/-- C9: should_buy and should_sell never both hold; should_buy holds exactly
on values greater than zero and should_sell exactly on values less than zero
(a NaN value fails both comparisons), so a zero-valued and a NaN-valued
signal both take the no-action branch of process_signal. -/
theorem signal_buy_sell_exclusive (s : Signal) (nm : String) :
    ((s.should_buy && s.should_sell) = false) ∧
    (s.should_buy = true ↔ ∃ q, s.value = some q ∧ 0 < q) ∧
    (s.should_sell = true ↔ ∃ q, s.value = some q ∧ q < 0) ∧
    process_signal (Signal.new nm (some 0)) = SignalAction.noAction ∧
    process_signal (Signal.new nm none) = SignalAction.noAction := by
  obtain ⟨n, v⟩ := s
  refine ⟨?_, ?_, ?_, ?_, ?_⟩
  · cases v with
    | none => rfl
    | some q =>
        simp only [Signal.should_buy, Signal.should_sell, fgt0, flt0,
          Bool.and_eq_false_eq_eq_false_or_eq_false, decide_eq_false_iff_not,
          not_lt]
        rcases le_or_lt q 0 with h | h
        · left; exact h
        · right; exact le_of_lt h
  · cases v with
    | none => simp [Signal.should_buy, fgt0]
    | some q => simp [Signal.should_buy, fgt0]
  · cases v with
    | none => simp [Signal.should_sell, flt0]
    | some q => simp [Signal.should_sell, flt0]
  · simp [process_signal, Signal.new, Signal.should_buy, Signal.should_sell,
      fgt0, flt0]
  · rfl

/-- C10: a mint path string that does not parse as a public key is answered
with the invalid mint pubkey error and no chain read is performed; a chain
lookup happens only for, and with, a successfully parsed mint key. -/
theorem token_account_rejects_bad_mint (env : TokenEnv) (wallet : Pubkey) (mint : String)
    (hc : env.rpcClient = Except.ok ()) :
    (env.pubkeyFromStr mint = none →
        token_account env wallet mint = (ApiResponse.err "invalid mint pubkey", [])) ∧
    (∀ pk, env.pubkeyFromStr mint = some pk →
        (token_account env wallet mint).2 = [pk]) := by
  constructor
  · intro hp
    unfold token_account
    rw [hc, hp]
  · intro pk hp
    unfold token_account
    rw [hc, hp]
    cases htk : env.tokenAccountOf wallet pk <;> simp [htk]

/-- Witness for C10: a concrete environment in which BADMINT does not parse,
and the handler answers invalid mint pubkey with no chain read. -/
theorem token_account_rejects_bad_mint_witness :
    token_account exTokenEnv 1 "BADMINT" = (ApiResponse.err "invalid mint pubkey", []) :=
  (token_account_rejects_bad_mint exTokenEnv 1 "BADMINT" rfl).1 rfl

/-- C2 counterexample: a mint with no bonding curve (the registry lookup
fails) for which an AMM pool exists.  The claim says resolution falls back to
the AMM pool registry and routes to the pool; get_coin_info instead
propagates the curve lookup failure as its result and never consults the AMM
venue for this mint. -/
theorem coin_info_no_amm_fallback_counterexample :
    (get_coin_info exNoCurveEnv "MINT").1 = Except.error "curve not found" ∧
    (exNoCurveEnv.poolPriceByMint "MINT").isOk = true ∧
    VenueQuery.ammPriceLookup "MINT" ∉ (get_coin_info exNoCurveEnv "MINT").2 := by
  refine ⟨rfl, rfl, ?_⟩
  decide

/-- C2 amended: venue resolution queries the bonding-curve registry first; a
curve lookup failure (including a mint with no curve) propagates as an error
with no AMM fallback; a curve with complete = false is returned without any
AMM query; for a curve with complete = true the AMM pool price is also
queried and attached when found; and after a successful curve lookup the
resolution always succeeds (there is no NoVenueFound outcome). -/
theorem coin_info_resolution_order (env : ChainEnv) (mint : String)
    (hc : env.rpcClient = Except.ok ()) (hb : env.rpcClientBlocking = Except.ok ()) :
    ((get_coin_info env mint).2.head? = some (VenueQuery.pumpLookup mint)) ∧
    (∀ e, env.pumpInfoOf mint = Except.error e →
        (get_coin_info env mint).1 = Except.error e ∧
        (get_coin_info env mint).2 = [VenueQuery.pumpLookup mint]) ∧
    (∀ info, env.pumpInfoOf mint = Except.ok info → info.complete = false →
        get_coin_info env mint = (Except.ok info, [VenueQuery.pumpLookup mint])) ∧
    (∀ info, env.pumpInfoOf mint = Except.ok info → info.complete = true →
        (get_coin_info env mint).2 =
          [VenueQuery.pumpLookup mint, VenueQuery.ammPriceLookup mint] ∧
        ∀ ri, env.poolPriceByMint mint = Except.ok ri →
          (get_coin_info env mint).1 =
            Except.ok { info with raydium_info := some ri }) ∧
    (∀ info, env.pumpInfoOf mint = Except.ok info →
        ∃ out, (get_coin_info env mint).1 = Except.ok out) := by
  rw [get_coin_info_clients_ok env mint hc hb]
  refine ⟨?_, ?_, ?_, ?_, ?_⟩
  · cases hpump : env.pumpInfoOf mint with
    | error e => simp [hpump]
    | ok info =>
        by_cases hcomp : info.complete
        · cases hpool : env.poolPriceByMint mint <;> simp [hpump, hcomp, hpool]
        · simp [hpump, hcomp]
  · intro e he
    simp [he]
  · intro info hi hcmp
    simp [hi, hcmp]
  · intro info hi hcmp
    constructor
    · cases hpool : env.poolPriceByMint mint <;> simp [hi, hcmp, hpool]
    · intro ri hri
      simp [hi, hcmp, hri]
  · intro info hi
    by_cases hcomp : info.complete
    · cases hpool : env.poolPriceByMint mint with
      | error e => exact ⟨info, by simp [hi, hcomp, hpool]⟩
      | ok ri => exact ⟨{ info with raydium_info := some ri }, by simp [hi, hcomp, hpool]⟩
    · exact ⟨info, by simp [hi, hcomp]⟩

/-- Witness for the amended C2 at a concrete environment: the bonding curve
registry is queried first. -/
theorem coin_info_resolution_order_witness :
    (get_coin_info exCompleteEnv "MINT").2.head? = some (VenueQuery.pumpLookup "MINT") :=
  (coin_info_resolution_order exCompleteEnv "MINT" rfl rfl).1

/-- C3 counterexample: a completed curve whose AMM pool price lookup fails.
The claim says the venue-pricing error is surfaced to the caller; instead the
resolution succeeds (the error is absorbed, the AMM info is simply absent)
and the coins endpoint answers with a success response. -/
theorem coin_info_absorbs_price_error_counterexample :
    exPriceFailEnv.poolPriceByMint "MINT" = Except.error "pool price unavailable" ∧
    (get_coin_info exPriceFailEnv "MINT").1 = Except.ok (exPumpInfo true) ∧
    coins exPriceFailEnv "MINT" = ApiResponse.ok (exPumpInfo true) :=
  ⟨rfl, rfl, rfl⟩

/-- C3 amended: engine errors reaching the swap handler are surfaced as error
responses (and successes as success responses), and a bonding-curve lookup
failure during coin info resolution propagates unchanged to the caller; an
AMM pool price lookup failure for a completed curve, however, is absorbed:
the resolution and the coins endpoint still succeed, with the AMM info
absent. -/
theorem error_propagation_policy (env : ChainEnv) (mint : String)
    (hc : env.rpcClient = Except.ok ()) (hb : env.rpcClientBlocking = Except.ok ()) :
    (∀ e, swapResponse (Except.error e) = ApiResponse.err e) ∧
    (∀ txs, swapResponse (Except.ok txs) = ApiResponse.ok txs) ∧
    (∀ e, env.pumpInfoOf mint = Except.error e →
        (get_coin_info env mint).1 = Except.error e ∧
        coins env mint = ApiResponse.err e) ∧
    (∀ info e, env.pumpInfoOf mint = Except.ok info → info.complete = true →
        env.poolPriceByMint mint = Except.error e →
        (get_coin_info env mint).1 = Except.ok info ∧
        coins env mint = ApiResponse.ok info) := by
  refine ⟨fun e => rfl, fun txs => rfl, ?_, ?_⟩
  · intro e he
    have h1 : (get_coin_info env mint).1 = Except.error e := by
      rw [get_coin_info_clients_ok env mint hc hb]
      simp [he]
    exact ⟨h1, by simp [coins, h1]⟩
  · intro info e hi hcmp hpe
    have h1 : (get_coin_info env mint).1 = Except.ok info := by
      rw [get_coin_info_clients_ok env mint hc hb]
      simp [hi, hcmp, hpe]
    exact ⟨h1, by simp [coins, h1]⟩

/-- Witness for the amended C3 at a concrete environment: the absorbed AMM
price error leaves the coins endpoint successful. -/
theorem error_propagation_policy_witness :
    (get_coin_info exPriceFailEnv "MINT").1 = Except.ok (exPumpInfo true) ∧
    coins exPriceFailEnv "MINT" = ApiResponse.ok (exPumpInfo true) :=
  (error_propagation_policy exPriceFailEnv "MINT" rfl rfl).2.2.2 (exPumpInfo true)
    "pool price unavailable" rfl rfl rfl

/-- C4: for a mint whose bonding curve is complete and for which an AMM pool
exists (the pool price lookup succeeds), every successful resolution result
keeps complete = true, so its routed venue is never the bonding curve. -/
theorem resolve_never_bonding_curve_after_migration (env : ChainEnv) (mint : String)
    (info : PumpInfo) (hp : env.pumpInfoOf mint = Except.ok info)
    (hcomp : info.complete = true)
    (hpool : ∃ ri, env.poolPriceByMint mint = Except.ok ri) :
    ∀ out, (get_coin_info env mint).1 = Except.ok out →
      out.complete = true ∧ routedVenue out ≠ VenueKind.bondingCurve := by
  intro out hout
  unfold get_coin_info at hout
  cases hcl : env.rpcClient with
  | error e => simp [hcl] at hout
  | ok u =>
    cases hbl : env.rpcClientBlocking with
    | error e => simp [hcl, hbl] at hout
    | ok u2 =>
      obtain ⟨ri, hri⟩ := hpool
      simp [hcl, hbl, hp, hcomp, hri] at hout
      subst hout
      refine ⟨?_, ?_⟩ <;> simp [routedVenue]

/-- Witness for C4 at a concrete environment with a completed curve and an
existing AMM pool. -/
theorem resolve_never_bonding_curve_after_migration_witness :
    ({ exPumpInfo true with raydium_info := some exRaydiumInfo } : PumpInfo).complete = true ∧
    routedVenue { exPumpInfo true with raydium_info := some exRaydiumInfo } ≠
      VenueKind.bondingCurve :=
  resolve_never_bonding_curve_after_migration exCompleteEnv "MINT" (exPumpInfo true)
    rfl rfl ⟨exRaydiumInfo, rfl⟩
    { exPumpInfo true with raydium_info := some exRaydiumInfo } rfl

/-- C5: start_service performs the tip account discovery at most once, and
exactly once, before serving, whenever serving is reached; and when the
discovery fails, the process panics with that error and never reaches the
serving step. -/
theorem startup_tip_discovery_once_before_serve (env : DaemonEnv) :
    ((start_service env).2.count StartEvent.initTipAccounts ≤ 1) ∧
    (StartEvent.serve ∈ (start_service env).2 →
        (start_service env).2.count StartEvent.initTipAccounts = 1 ∧
        (start_service env).2.head? = some StartEvent.initTipAccounts) ∧
    (∀ e, env.initTipAccountsResult = Except.error e →
        (start_service env).1 = StartOutcome.panicked e ∧
        StartEvent.serve ∉ (start_service env).2) := by
  obtain ⟨i, b⟩ := env
  cases i with
  | error e0 =>
      refine ⟨by simp [start_service], by simp [start_service], ?_⟩
      intro e he
      simp only [Except.error.injEq] at he
      subst he
      exact ⟨rfl, by simp [start_service]⟩
  | ok u =>
      cases u
      cases b with
      | error e1 =>
          refine ⟨by simp [start_service], ?_, ?_⟩
          · intro hserve
            simp [start_service] at hserve
          · intro e he
            simp at he
      | ok u2 =>
          cases u2
          refine ⟨by decide, fun _ => ⟨by decide, by decide⟩, ?_⟩
          intro e he
          simp at he

/-- C6: the tip stream subscription absorbs a transport failure by retrying
(the snapshot survives the reconnect), so the spawned task always runs to
shutdown and never panics; the daemon process outcome and trace are the same
whatever the tip stream observes; and the outcome of an ordinary
(non-priority) swap is the same whatever the tip state, percentile and
minimum tip are. -/
theorem tip_stream_survives_and_never_blocks (attempts : List ConnAttempt)
    (env : DaemonEnv) (a1 a2 : List ConnAttempt) (st st2 : TipState)
    (pct pct2 : Percentile) (m m2 : Nat) (core : Except String (List String)) :
    (∃ stf, tipStreamTask attempts = TaskOutcome.completed stf) ∧
    (∀ st0 : TipState,
        tip_stream_loop (ConnAttempt.transportFail :: attempts) st0 =
          tip_stream_loop attempts st0) ∧
    ((daemon_run env a1).1 = (daemon_run env a2).1) ∧
    (execute_with_tip core false st pct m = execute_with_tip core false st2 pct2 m2) := by
  exact ⟨⟨tip_stream_loop attempts none, rfl⟩, fun st0 => rfl, rfl, rfl⟩

/-- C7: before any tip stream message has arrived, current_tip is Unavailable
and a priority swap is completed with the configured minimum fallback tip:
its outcome is exactly the outcome of its tipless core, so it never fails
solely because the tip was Unavailable. -/
theorem priority_swap_fallback_tip (pct : Percentile) (minTip : Nat) (txs : List String) :
    current_tip none pct = none ∧
    (∀ core : Except String (List String),
        execute_with_tip core true none pct minTip =
          core.map (fun t => (t, some minTip))) ∧
    execute_with_tip (Except.ok txs) true none pct minTip =
      Except.ok (txs, some minTip) := by
  exact ⟨rfl, fun core => rfl, rfl⟩
